import Mathlib

/-!
Verification of the geospatial view-synchronization core of the
`free_uk_school_research` web client.

Shallow embedding conventions:
* JS `number` values that the core only stores, compares and adds
  (coordinates, totals, radii, filter values) are modelled by `ℚ` (exact
  decimals), counts by `ℕ`.
* The derived home distance is `Math.round(haversineKm(...) * 100) / 100`,
  whose value is always a rational of the form `k / 100`; it is modelled by a
  `ℚ`-valued rounding of the real-valued haversine distance.
* `null`/`undefined`-able values are `Option`; fallible operations (network
  fetches, `JSON.parse`) are `Except Unit`-valued outcomes supplied to the
  handler under verification.
* React state updates are modelled by explicit state passing on a record of
  the relevant `useState` cells.
-/

namespace SchoolApp

/-- One admissions-history entry (`CatchmentEntry` in `src/web/src/lib/api.ts`). -/
structure CatchmentEntry where
  year : ℤ
  last_distance_offered : Option ℚ
  offers_made : Option ℚ
  applications : Option ℚ
  deriving DecidableEq, Repr

/-- A school record (`School` in `src/web/src/lib/api.ts`).  The presentational
metric fields (KS2/KS4/KS5 results, destinations, ethnicity percentages,
pupil numbers, Ofsted date, ages) are never read by the view-synchronization
core verified here and are omitted from the embedding. -/
structure School where
  urn : ℕ
  name : String
  type : Option String
  phase : Option String
  admissions_policy : Option String
  postcode : Option String
  latitude : Option ℚ
  longitude : Option ℚ
  ofsted_rating : Option String
  distance_km : Option ℚ
  distance_from_home : Option ℚ
  catchment : Option (List CatchmentEntry)
  deriving DecidableEq, Repr

/-- `HomeLocation` from `src/web/src/lib/home.ts`. -/
structure HomeLocation where
  postcode : String
  latitude : ℚ
  longitude : ℚ
  deriving DecidableEq, Repr

/-- `getHome` from `src/web/src/lib/home.ts` (lines 9-18).
`windowDefined` models `typeof window !== "undefined"`; `storage` models
`localStorage.getItem(STORAGE_KEY)` (`none` = key absent); `parse` models
`JSON.parse` followed by the cast to `HomeLocation`, with `.error` standing
for a thrown parse exception (caught by the `try`/`catch`, which returns
`null`).  The empty-string test models JS falsiness of `raw`. -/
def getHome (windowDefined : Bool) (parse : String → Except Unit HomeLocation)
    (storage : Option String) : Option HomeLocation :=
  if windowDefined = false then none
  else
    match storage with
    | none => none
    | some raw =>
      if raw = "" then none
      else
        match parse raw with
        | Except.ok h => some h
        | Except.error _ => none

/-- `Math.atan2 y x`, modelled on the reals from the JS specification
(the core only applies it to non-negative arguments). -/
noncomputable def atan2 (y x : ℝ) : ℝ :=
  if 0 < x then Real.arctan (y / x)
  else if x < 0 then
    (if 0 ≤ y then Real.arctan (y / x) + Real.pi else Real.arctan (y / x) - Real.pi)
  else
    (if 0 < y then Real.pi / 2 else if y < 0 then -(Real.pi / 2) else 0)

/-- `haversineKm` from `src/web/src/lib/home.ts` (lines 31-46): haversine
great-circle distance in km, Earth radius 6371 km. -/
noncomputable def haversineKm (lat1 lng1 lat2 lng2 : ℝ) : ℝ :=
  let R : ℝ := 6371
  let dLat := (lat2 - lat1) * Real.pi / 180
  let dLng := (lng2 - lng1) * Real.pi / 180
  let a :=
    Real.sin (dLat / 2) ^ 2 +
      Real.cos (lat1 * Real.pi / 180) * Real.cos (lat2 * Real.pi / 180) *
        Real.sin (dLng / 2) ^ 2
  R * 2 * atan2 (Real.sqrt a) (Real.sqrt (1 - a))

/-- `Math.round(x * 100) / 100`: round to 2 decimal places, half up.  The
result is an exact rational `k / 100`. -/
noncomputable def roundTo2 (x : ℝ) : ℚ :=
  (⌊x * 100 + 1 / 2⌋ : ℚ) / 100

/-- The per-record body of the `.map` in `enrichWithHomeDistance`
(`src/web/src/app/map/page.tsx`, lines 60-64): a record with both
coordinates present gets `distance_from_home` attached; any other record is
returned unchanged. -/
noncomputable def attachHomeDistance (home : HomeLocation) (s : School) : School :=
  match s.latitude, s.longitude with
  | some la, some ln =>
    let d := roundTo2 (haversineKm (home.latitude : ℝ) (home.longitude : ℝ) (la : ℝ) (ln : ℝ))
    { s with distance_from_home := some d }
  | _, _ => s

/-- The sort key of the comparator on line 65 of `map/page.tsx`:
`(a.distance_from_home ?? Infinity)`, with `Infinity` modelled by `⊤` in
`WithTop ℚ`. -/
def sortKey (s : School) : WithTop ℚ :=
  match s.distance_from_home with
  | some d => (d : WithTop ℚ)
  | none => ⊤

/-- Ordering induced by the comparator
`(a.distance_from_home ?? Infinity) - (b.distance_from_home ?? Infinity)`. -/
def schoolLE (a b : School) : Prop :=
  sortKey a ≤ sortKey b

instance : DecidableRel schoolLE :=
  fun a b => inferInstanceAs (Decidable (sortKey a ≤ sortKey b))

instance : IsTotal School schoolLE :=
  ⟨fun a b => le_total (sortKey a) (sortKey b)⟩

instance : IsTrans School schoolLE :=
  ⟨fun _ _ _ h1 h2 => le_trans h1 h2⟩

/-- `enrichWithHomeDistance` from `src/web/src/app/map/page.tsx`
(lines 55-68).  With no home set (`getHome()` returned `null`) the input is
returned unchanged; otherwise each record is mapped by `attachHomeDistance`
and the result is sorted by the comparator of line 65 (JS `Array.sort` is
stable; `insertionSort` is the stable sort). -/
noncomputable def enrichWithHomeDistance (h : Option HomeLocation)
    (data : List School) : List School :=
  match h with
  | none => data
  | some home => List.insertionSort schoolLE (data.map (attachHomeDistance home))

/-- `MapBounds` from `src/web/src/components/SchoolMap.tsx` (lines 94-99). -/
structure MapBounds where
  south : ℚ
  north : ℚ
  west : ℚ
  east : ℚ
  deriving DecidableEq, Repr

/-- The `useState` cells of `MapPageContent` that bounds-fetch handling reads
or writes (`src/web/src/app/map/page.tsx`, lines 41-48). -/
structure ViewState where
  schools : List School
  tooManySchools : Bool
  loading : Bool
  deriving Repr

/-- The `{schools, total}` payload returned by `fetchSchoolsByBounds`. -/
structure BoundsResponse where
  schools : List School
  total : ℕ
  deriving Repr

/-- One request to the remote bounds endpoint, as issued on lines 116-120 of
`map/page.tsx` (`phase || undefined` / `rating || undefined`). -/
structure FetchRequest where
  bounds : MapBounds
  phase : Option String
  rating : Option String
  deriving DecidableEq, Repr

/-- `phase || undefined` (JS falsiness of the empty string). -/
def undefIfEmpty (s : String) : Option String :=
  if s = "" then none else some s

/-- Response handling of `loadSchoolsForBounds`
(`src/web/src/app/map/page.tsx`, lines 121-127): over-threshold responses
set `tooManySchools` and discard the payload; otherwise the flag is cleared
and the enriched payload becomes the displayed set. -/
noncomputable def applyBoundsResult (home : Option HomeLocation)
    (result : BoundsResponse) (st : ViewState) : ViewState :=
  if 1500 < result.total then
    { st with tooManySchools := true, schools := [] }
  else
    { st with tooManySchools := false,
              schools := enrichWithHomeDistance home result.schools }

/-- One complete run of `loadSchoolsForBounds`
(`src/web/src/app/map/page.tsx`, lines 112-135) on a given fetch `outcome`
(`.ok` = the awaited response, `.error` = a thrown transport failure).
Returns the final state, the `console.error` log lines, and every request
this run issues (exactly the single request of line 116 — the `catch` block
only logs, so no retry request exists in any branch).  Note the function
applies whatever outcome it is given: the code carries no request token and
never compares the outcome against a newer in-flight request. -/
noncomputable def loadSchoolsForBounds (home : Option HomeLocation)
    (phase rating : String) (bounds : MapBounds)
    (outcome : Except Unit BoundsResponse) (st : ViewState) :
    ViewState × List String × List FetchRequest :=
  let issued : List FetchRequest :=
    [{ bounds := bounds, phase := undefIfEmpty phase, rating := undefIfEmpty rating }]
  let st1 := { st with loading := true }
  match outcome with
  | Except.ok result =>
    ({ applyBoundsResult home result st1 with loading := false }, [], issued)
  | Except.error _ =>
    ({ st1 with loading := false }, ["Failed to load schools:"], issued)

/-- Successive bounds responses as the component applies them: each arriving
response runs the tail of `loadSchoolsForBounds` (lines 121-127)
unconditionally, so responses take effect in arrival order regardless of
issue order. -/
noncomputable def applyResponsesInArrivalOrder (home : Option HomeLocation)
    (resps : List BoundsResponse) (st : ViewState) : ViewState :=
  resps.foldl (fun s r => applyBoundsResult home r s) st

/-- The debounce delay of `handleBoundsChange`
(`src/web/src/app/map/page.tsx`, line 144). -/
def debounceDelay : ℕ := 300

/-- Timed semantics of `handleBoundsChange` (`map/page.tsx`, lines 137-147)
driven by a time-ordered list of viewport events `(time, bounds)`.
`pending` is the live `setTimeout` timer: `some (deadline, bounds)`.
A pending timer whose deadline has been reached before the next event fires
(emitting a fetch for its bounds at its deadline); an arriving event always
`clearTimeout`s any still-pending timer and arms a fresh one for
`time + delay` with its own bounds.  The result is the list of
`(fire time, bounds)` fetches actually issued. -/
def debounceRun (delay : ℕ) (pending : Option (ℕ × MapBounds)) :
    List (ℕ × MapBounds) → List (ℕ × MapBounds)
  | [] =>
    match pending with
    | none => []
    | some p => [p]
  | (t, b) :: rest =>
    (match pending with
     | some p => if p.1 ≤ t then [p] else []
     | none => []) ++ debounceRun delay (some (t + delay, b)) rest

/-- `handleBoundsChange` applied to a whole event trace, starting with no
timer armed. -/
def debounceFetches (delay : ℕ) (events : List (ℕ × MapBounds)) :
    List (ℕ × MapBounds) :=
  debounceRun delay none events

/-- The filter-change effect (`src/web/src/app/map/page.tsx`, lines 181-191)
at an event occurring at time `t`: on the initial mount run it only flips
`didMount`; afterwards, a known viewport triggers `loadSchoolsForBounds`
synchronously (the issued request carries the event's own time `t` — no
`setTimeout` is involved), and with no known viewport nothing is issued.
Returns the issued `(time, request)` fetches and the new `didMount`. -/
def filterChangeFetches (didMount : Bool) (lastBounds : Option MapBounds)
    (phase rating : String) (t : ℕ) : List (ℕ × FetchRequest) × Bool :=
  match didMount, lastBounds with
  | false, _ => ([], true)
  | true, none => ([], true)
  | true, some b =>
    ([(t, { bounds := b, phase := undefIfEmpty phase, rating := undefIfEmpty rating })], true)

/-- `CatchmentCircle` from `src/web/src/components/SchoolMap.tsx`
(lines 81-86).  The label string
`` `${d.toFixed(2)} mi (${year})` `` is modelled by its two determinants:
the formatted distance (`labelMiles`) and the year (`labelYear`). -/
structure CatchmentCircle where
  lat : ℚ
  lng : ℚ
  radiusMiles : ℚ
  labelMiles : ℚ
  labelYear : ℤ
  deriving DecidableEq, Repr

/-- The catchment-circle part of `handleSchoolClick`
(`src/web/src/app/map/page.tsx`, lines 81-110) as a function of the detail
fetch outcome.  `detail.catchment?.find((e) => e.last_distance_offered != null)`
selects the first history entry with a present distance; the guard
`entry && detail.latitude && detail.longitude` uses JS truthiness on the
coordinates, so a coordinate that is `null` **or exactly `0`** falls to the
`else` branch, which clears the circle.  A thrown fetch failure is caught
and clears the circle; no branch issues another fetch. -/
def resolveCatchmentCircle (outcome : Except Unit School) : Option CatchmentCircle :=
  match outcome with
  | Except.error _ => none
  | Except.ok detail =>
    match (detail.catchment.getD []).find? (fun e => e.last_distance_offered.isSome),
          detail.latitude, detail.longitude with
    | some entry, some la, some ln =>
      if la ≠ 0 ∧ ln ≠ 0 then
        match entry.last_distance_offered with
        | some d =>
          some { lat := la, lng := ln, radiusMiles := d, labelMiles := d,
                 labelYear := entry.year }
        | none => none
      else none
    | _, _, _ => none

/-- The co-located marker offset constant
(`src/web/src/components/SchoolMap.tsx`, lines 227-228). -/
def deltaOffset : ℚ := 8 / 100000

/-- `dupesBefore` (`src/web/src/components/SchoolMap.tsx`, lines 222-226)
recast with the already-processed prefix as an accumulator: the number of
records in `before` (= `schools.slice(0, idx)`) whose latitude and longitude
both `===`-equal those of the current record `s`. -/
def dupesAmong (before : List School) (s : School) : ℕ :=
  (before.filter (fun t =>
    decide (t.latitude = s.latitude) && decide (t.longitude = s.longitude))).length

/-- Marker placement of the `schools.map` renderer
(`src/web/src/components/SchoolMap.tsx`, lines 218-273), one output per
input record in input order: `none` for a record missing a coordinate
(line 220 renders no marker), otherwise the true coordinate shifted by
`dupesBefore × δ` in both latitude and longitude (lines 227-228).  The
record itself is never modified — only the rendered position list is
produced. -/
def markerPositionsAux (before : List School) :
    List School → List (Option (ℚ × ℚ))
  | [] => []
  | s :: rest =>
    (match s.latitude, s.longitude with
     | some la, some ln =>
       let d : ℚ := (dupesAmong before s : ℚ)
       some (la + d * deltaOffset, ln + d * deltaOffset)
     | _, _ => none) :: markerPositionsAux (before ++ [s]) rest

/-- Rendered positions for a full school list. -/
def markerPositions (schools : List School) : List (Option (ℚ × ℚ)) :=
  markerPositionsAux [] schools

/-! ### Concrete sample data used by witnesses and counterexamples -/

/-- A school record with no derived fields attached. -/
def blankSchool : School :=
  { urn := 0, name := "", type := none, phase := none, admissions_policy := none,
    postcode := none, latitude := none, longitude := none, ofsted_rating := none,
    distance_km := none, distance_from_home := none, catchment := none }

/-- A record carrying a `distance_from_home` left over from an earlier
enrichment pass. -/
def staleEnrichedSchool : School :=
  { blankSchool with urn := 100001, name := "St Mary", latitude := some 51.5,
                     longitude := some (1/10), distance_from_home := some (5/2) }

def schoolA : School :=
  { blankSchool with urn := 1, name := "A", latitude := some 51, longitude := some (1/5) }

def schoolB : School :=
  { blankSchool with urn := 2, name := "B", latitude := some 52, longitude := some (3/10) }

/-- Response to the FIRST-issued (superseded) bounds request. -/
def staleResponse : BoundsResponse := { schools := [schoolA], total := 1 }

/-- Response to the SECOND-issued (most recent) bounds request. -/
def freshResponse : BoundsResponse := { schools := [schoolB], total := 1 }

def emptyViewState : ViewState := { schools := [], tooManySchools := false, loading := false }

/-! ### Claims -/

/-- Claim C1.  The spec requires that a stale bounds-fetch response never
overwrite a newer one.  The code has no request token and no cancellation:
`loadSchoolsForBounds` (lines 112-135) applies whichever response arrives,
so when the first-issued request's response arrives after the
second-issued request's response, the stale payload overwrites the fresh
one: the displayed set ends as `[schoolA]` (the superseded request's data),
not `[schoolB]`. -/
theorem claim_C1_stale_response_overwrites :
    applyResponsesInArrivalOrder none [freshResponse, staleResponse] emptyViewState =
      { schools := [schoolA], tooManySchools := false, loading := false } ∧
    schoolA ≠ schoolB := by
  constructor
  · rfl
  · decide

/-- Claim C2, counterexample.  After clearing home, the next enrichment pass
(`enrichWithHomeDistance` with `getHome() = null`, line 58) returns its
input **unchanged**: a record enriched earlier keeps its
`distance_from_home` field, contradicting the claim that the field is
removed. -/
theorem claim_C2_counterexample :
    enrichWithHomeDistance none [staleEnrichedSchool] = [staleEnrichedSchool] ∧
    staleEnrichedSchool.distance_from_home = some (5/2) := by
  exact ⟨rfl, rfl⟩

/-- Claim C2, amended.  With home cleared, the enrichment pass triggered by
the home-changed notification returns the record list unchanged: previously
attached `distance_from_home` fields are retained, and the list keeps the
order it already had (the input order of the pass) — no resorting occurs. -/
theorem claim_C2_amended (l : List School) :
    enrichWithHomeDistance none l = l := rfl

/-- Claim C5.  Response handling of an applied bounds fetch
(lines 121-127): a total above 1500 sets `tooManySchools` and empties the
displayed set, discarding the payload; otherwise the flag is cleared and
the enriched payload becomes the displayed set — in particular a 1600-total
response followed by a 200-total response ends with the flag cleared and
the 200 enriched records displayed. -/
theorem claim_C5_threshold (home : Option HomeLocation) (st : ViewState)
    (r1600 r200 : BoundsResponse)
    (h1600 : r1600.total = 1600) (h200 : r200.total = 200) :
    (∀ (r : BoundsResponse) (s : ViewState), 1500 < r.total →
        applyBoundsResult home r s = { s with tooManySchools := true, schools := [] }) ∧
    (∀ (r : BoundsResponse) (s : ViewState), r.total ≤ 1500 →
        applyBoundsResult home r s =
          { s with tooManySchools := false,
                   schools := enrichWithHomeDistance home r.schools }) ∧
    applyBoundsResult home r1600 st = { st with tooManySchools := true, schools := [] } ∧
    applyBoundsResult home r200 (applyBoundsResult home r1600 st) =
      { st with tooManySchools := false,
                schools := enrichWithHomeDistance home r200.schools } := by
  have hover : ∀ (r : BoundsResponse) (s : ViewState), 1500 < r.total →
      applyBoundsResult home r s = { s with tooManySchools := true, schools := [] } := by
    intro r s hr
    simp [applyBoundsResult, if_pos hr]
  have hunder : ∀ (r : BoundsResponse) (s : ViewState), r.total ≤ 1500 →
      applyBoundsResult home r s =
        { s with tooManySchools := false,
                 schools := enrichWithHomeDistance home r.schools } := by
    intro r s hr
    simp [applyBoundsResult, if_neg (not_lt.mpr hr)]
  refine ⟨hover, hunder, ?_, ?_⟩
  · exact hover r1600 st (by omega)
  · rw [hover r1600 st (by omega), hunder r200 _ (by omega)]

/-- Witness for claim C5 at concrete inputs. -/
theorem claim_C5_threshold_witness :
    applyBoundsResult none { schools := [], total := 1600 } emptyViewState =
      { emptyViewState with tooManySchools := true, schools := [] } ∧
    applyBoundsResult none { schools := [schoolA], total := 200 }
        (applyBoundsResult none { schools := [], total := 1600 } emptyViewState) =
      { emptyViewState with tooManySchools := false,
                            schools := enrichWithHomeDistance none [schoolA] } := by
  have h := claim_C5_threshold none emptyViewState
    { schools := [], total := 1600 } { schools := [schoolA], total := 200 } rfl rfl
  exact ⟨h.2.2.1, h.2.2.2⟩

/-- Claim C6.  The filter-change effect (lines 181-191): after the initial
mount run, a filter change with a known viewport issues exactly one fetch,
synchronously at the event's own time `t` (no debounce timer is involved),
carrying the last-known bounds and the new filters; with no known viewport
it issues nothing; the initial mount run itself issues nothing. -/
theorem claim_C6_filter_change_immediate (b : MapBounds) (phase rating : String)
    (t : ℕ) (ob : Option MapBounds) :
    filterChangeFetches true (some b) phase rating t =
      ([(t, { bounds := b, phase := undefIfEmpty phase,
              rating := undefIfEmpty rating })], true) ∧
    filterChangeFetches true none phase rating t = ([], true) ∧
    filterChangeFetches false ob phase rating t = ([], true) := by
  refine ⟨rfl, rfl, ?_⟩
  cases ob <;> rfl

/-- Claim C9.  A transport failure in `loadSchoolsForBounds` (the `catch`
block, lines 128-132) logs the failure, leaves the displayed school set and
the `tooManySchools` flag exactly as they were, and issues no further
request beyond the single original one (no retry). -/
theorem claim_C9_error_preserves_state (home : Option HomeLocation)
    (phase rating : String) (bounds : MapBounds) (st : ViewState) :
    (loadSchoolsForBounds home phase rating bounds (Except.error ()) st).1.schools
        = st.schools ∧
    (loadSchoolsForBounds home phase rating bounds (Except.error ()) st).1.tooManySchools
        = st.tooManySchools ∧
    (loadSchoolsForBounds home phase rating bounds (Except.error ()) st).2.1
        = ["Failed to load schools:"] ∧
    (loadSchoolsForBounds home phase rating bounds (Except.error ()) st).2.2
        = [{ bounds := bounds, phase := undefIfEmpty phase,
             rating := undefIfEmpty rating }] := by
  exact ⟨rfl, rfl, rfl, rfl⟩

/-- Claim C10.  `getHome` (lines 9-18) is total by construction (every
thrown `JSON.parse` error is caught) and returns `none` whenever the
durable key is missing, holds the empty string (JS-falsy `raw`), or holds a
string the parser rejects. -/
theorem claim_C10_getHome_corrupt_is_absent (wd : Bool)
    (parse : String → Except Unit HomeLocation) :
    getHome wd parse none = none ∧
    getHome wd parse (some "") = none ∧
    ∀ raw : String, parse raw = Except.error () → getHome wd parse (some raw) = none := by
  refine ⟨?_, ?_, ?_⟩
  · cases wd <;> rfl
  · cases wd <;> rfl
  · intro raw hraw
    cases wd
    · rfl
    · by_cases hempty : raw = ""
      · simp [getHome, hempty]
      · simp [getHome, hempty, hraw]

/-- Witness for claim C10 at concrete inputs. -/
theorem claim_C10_getHome_corrupt_is_absent_witness :
    getHome true (fun _ => Except.error ()) none = none ∧
    getHome true (fun _ => Except.error ()) (some "") = none ∧
    getHome true (fun _ => Except.error ()) (some "not json") = none := by
  have h := claim_C10_getHome_corrupt_is_absent true (fun _ => Except.error ())
  exact ⟨h.1, h.2.1, h.2.2 "not json" rfl⟩

/-- A timer armed strictly after every remaining event arrives never fires
early: each event cancels it and re-arms, so a burst whose internal gaps
are below the delay produces exactly the final timer's fetch. -/
theorem debounceRun_burst (delay : ℕ) :
    ∀ (l : List (ℕ × MapBounds)) (d : ℕ) (pb : MapBounds),
      (∀ e ∈ l.head?, e.1 < d) →
      List.Chain' (fun a b : ℕ × MapBounds => a.1 ≤ b.1 ∧ b.1 < a.1 + delay) l →
      debounceRun delay (some (d, pb)) l =
        [l.getLast?.elim (d, pb) (fun e => (e.1 + delay, e.2))] := by
  intro l
  induction l with
  | nil =>
    intro d pb _ _
    rfl
  | cons e rest ih =>
    intro d pb hhead hchain
    have hlt : e.1 < d := hhead e rfl
    have hrest : List.Chain' (fun a b : ℕ × MapBounds => a.1 ≤ b.1 ∧ b.1 < a.1 + delay) rest :=
      hchain.tail
    have hheadrest : ∀ e2 ∈ rest.head?, e2.1 < e.1 + delay := by
      intro e2 he2
      cases rest with
      | nil => simp at he2
      | cons r2 tl =>
        simp only [List.head?_cons, Option.mem_def, Option.some.injEq] at he2
        subst he2
        exact (List.chain'_cons.mp hchain).1.2
    have hnofire : ¬ d ≤ e.1 := not_le.mpr hlt
    show (if d ≤ e.1 then [(d, pb)] else []) ++
        debounceRun delay (some (e.1 + delay, e.2)) rest = _
    rw [if_neg hnofire, List.nil_append, ih (e.1 + delay) e.2 hheadrest hrest]
    cases hrest2 : rest.getLast? with
    | none =>
      have : rest = [] := List.getLast?_eq_none_iff.mp hrest2
      subst this
      rfl
    | some e2 =>
      cases rest with
      | nil => simp at hrest2
      | cons r2 tl =>
        rw [List.getLast?_cons_cons, hrest2]
        rfl

/-- Claim C4.  For a nonempty burst of viewport events in which each event
arrives no earlier than the previous one and strictly within the 300 ms
debounce delay of it, `handleBoundsChange` (lines 137-147) issues exactly
one fetch: it carries the bounds of the burst's last event and fires at
that event's time plus 300 ms (hence at or after it); no fetch is issued
for any intermediate bounds. -/
theorem claim_C4_trailing_debounce (e : ℕ × MapBounds) (rest : List (ℕ × MapBounds))
    (hchain : List.Chain' (fun a b : ℕ × MapBounds =>
      a.1 ≤ b.1 ∧ b.1 < a.1 + debounceDelay) (e :: rest)) :
    debounceFetches debounceDelay (e :: rest) =
      [(((e :: rest).getLastD e).1 + debounceDelay, ((e :: rest).getLastD e).2)] := by
  show debounceRun debounceDelay (some (e.1 + debounceDelay, e.2)) rest = _
  have hheadrest : ∀ e2 ∈ rest.head?, e2.1 < e.1 + debounceDelay := by
    intro e2 he2
    cases rest with
    | nil => simp at he2
    | cons r2 tl =>
      simp only [List.head?_cons, Option.mem_def, Option.some.injEq] at he2
      subst he2
      exact (List.chain'_cons.mp hchain).1.2
  rw [debounceRun_burst debounceDelay rest (e.1 + debounceDelay) e.2 hheadrest hchain.tail]
  rw [List.getLastD_cons]
  cases hrest2 : rest.getLast? with
  | none =>
    have : rest = [] := List.getLast?_eq_none_iff.mp hrest2
    subst this
    rfl
  | some e2 =>
    rw [List.getLastD_eq_getLast?, hrest2]
    rfl

/-- Witness for claim C4: the spec's worked example — events at t = 0, 100,
150 ms with distinct bounds yield exactly one fetch, for the t = 150
bounds, firing at t = 450. -/
theorem claim_C4_trailing_debounce_witness :
    debounceFetches debounceDelay
      [(0, { south := 0, north := 1, west := 0, east := 1 }),
       (100, { south := 0, north := 2, west := 0, east := 2 }),
       (150, { south := 0, north := 3, west := 0, east := 3 })] =
      [(450, { south := 0, north := 3, west := 0, east := 3 })] := by
  have h := claim_C4_trailing_debounce
    (0, { south := 0, north := 1, west := 0, east := 1 })
    [(100, { south := 0, north := 2, west := 0, east := 2 }),
     (150, { south := 0, north := 3, west := 0, east := 3 })]
    (by norm_num [List.chain'_cons, debounceDelay])
  exact h.trans (by decide)

/-- A fetched detail for a school on the Greenwich meridian (longitude
exactly 0) with an admissions history whose first distance-bearing entry is
year 2023 at 0.8 miles. -/
def meridianDetail : School :=
  { blankSchool with
      urn := 3, name := "Meridian Primary",
      latitude := some 51, longitude := some 0,
      catchment := some
        [{ year := 2024, last_distance_offered := none,
           offers_made := none, applications := none },
         { year := 2023, last_distance_offered := some (4/5),
           offers_made := none, applications := none }] }

/-- Claim C7, counterexample.  `meridianDetail` has both coordinates and a
history entry with a non-null `last_distance_offered` (0.8 miles, year
2023), so the claim demands a circle of radius 0.8 — but the guard
`detail.latitude && detail.longitude` (line 89) applies JS truthiness to
the numbers, and longitude `0` is falsy, so the code clears the circle. -/
theorem claim_C7_counterexample :
    resolveCatchmentCircle (Except.ok meridianDetail) = none ∧
    meridianDetail.latitude = some 51 ∧
    meridianDetail.longitude = some 0 ∧
    (meridianDetail.catchment.getD []).find?
        (fun e => e.last_distance_offered.isSome) =
      some { year := 2023, last_distance_offered := some (4/5),
             offers_made := none, applications := none } := by
  exact ⟨rfl, rfl, rfl, rfl⟩

/-- Claim C7, amended.  The catchment circle of `handleSchoolClick`
(lines 81-110) uses the first entry in history order whose
`last_distance_offered` is non-null, provided both coordinates are present
**and nonzero** (the JS truthiness guard of line 89 treats a coordinate of
exactly 0 like a missing one): it is centred on the record's coordinates
with that entry's radius in miles and a label built from that distance and
that entry's year.  If no such entry exists, a coordinate is missing or
zero, or the detail fetch fails, the circle is cleared; no branch issues a
retry. -/
theorem claim_C7_first_nonnull_entry (detail : School) (entry : CatchmentEntry)
    (la ln d : ℚ) :
    (∀ e : Unit, resolveCatchmentCircle (Except.error e) = none) ∧
    ((detail.catchment.getD []).find? (fun e => e.last_distance_offered.isSome) = none →
      resolveCatchmentCircle (Except.ok detail) = none) ∧
    (detail.latitude = none ∨ detail.longitude = none ∨
        detail.latitude = some 0 ∨ detail.longitude = some 0 →
      resolveCatchmentCircle (Except.ok detail) = none) ∧
    ((detail.catchment.getD []).find? (fun e => e.last_distance_offered.isSome) = some entry →
      entry.last_distance_offered = some d →
      detail.latitude = some la → detail.longitude = some ln → la ≠ 0 → ln ≠ 0 →
      resolveCatchmentCircle (Except.ok detail) =
        some { lat := la, lng := ln, radiusMiles := d, labelMiles := d,
               labelYear := entry.year }) := by
  refine ⟨fun _ => rfl, ?_, ?_, ?_⟩
  · intro hfind
    simp only [resolveCatchmentCircle, hfind]
  · intro hcoord
    simp only [resolveCatchmentCircle]
    rcases hcoord with h1 | h1 | h1 | h1 <;> rw [h1]
    · cases hf : (detail.catchment.getD []).find?
        (fun e => e.last_distance_offered.isSome) <;> simp
    · cases hf : (detail.catchment.getD []).find?
          (fun e => e.last_distance_offered.isSome) <;>
        cases detail.latitude <;> simp
    · cases hf : (detail.catchment.getD []).find?
          (fun e => e.last_distance_offered.isSome) <;>
        cases detail.longitude <;> simp
    · cases hf : (detail.catchment.getD []).find?
          (fun e => e.last_distance_offered.isSome) <;>
        cases detail.latitude <;> simp
  · intro hfind hd hla hln hla0 hln0
    simp only [resolveCatchmentCircle, hfind, hla, hln, hd]
    rw [if_pos ⟨hla0, hln0⟩]

/-- Witness for claim C7: the spec's worked example, at nonzero London
coordinates — history `[{2024, null}, {2023, 0.8}]` yields a circle of
radius 0.8 labelled with year 2023. -/
theorem claim_C7_first_nonnull_entry_witness :
    resolveCatchmentCircle (Except.ok
      { blankSchool with
          urn := 4, name := "Example School",
          latitude := some 51, longitude := some (-1),
          catchment := some
            [{ year := 2024, last_distance_offered := none,
               offers_made := none, applications := none },
             { year := 2023, last_distance_offered := some (4/5),
               offers_made := none, applications := none }] }) =
      some { lat := 51, lng := -1, radiusMiles := 4/5, labelMiles := 4/5,
             labelYear := 2023 } ∧
    resolveCatchmentCircle (Except.error ()) = none := by
  refine ⟨?_, ?_⟩
  · exact (claim_C7_first_nonnull_entry
      { blankSchool with
          urn := 4, name := "Example School",
          latitude := some 51, longitude := some (-1),
          catchment := some
            [{ year := 2024, last_distance_offered := none,
               offers_made := none, applications := none },
             { year := 2023, last_distance_offered := some (4/5),
               offers_made := none, applications := none }] }
      { year := 2023, last_distance_offered := some (4/5),
        offers_made := none, applications := none }
      51 (-1) (4/5)).2.2.2 rfl rfl rfl rfl (by decide) (by decide)
  · exact (claim_C7_first_nonnull_entry blankSchool
      { year := 0, last_distance_offered := none,
        offers_made := none, applications := none } 0 0 0).1 ()

/-- Claim C3.  Enrichment with a set home: the output is a rearrangement of
the input records mapped by the per-record attachment; it is sorted
ascending by the comparator key (`distance_from_home`, with a missing
distance treated as `Infinity` = `⊤`, hence sorted last); a record missing
a coordinate is left unchanged by the attachment; and a record with both
coordinates gets `distance_from_home` equal to the haversine distance
(Earth radius 6371 km) from home, rounded to 2 decimal places. -/
theorem claim_C3_enrichment (h : HomeLocation) (l : List School) :
    List.Perm (enrichWithHomeDistance (some h) l) (l.map (attachHomeDistance h)) ∧
    List.Sorted schoolLE (enrichWithHomeDistance (some h) l) ∧
    (∀ s : School, s.latitude = none ∨ s.longitude = none →
      attachHomeDistance h s = s) ∧
    (∀ (s : School) (la ln : ℚ), s.latitude = some la → s.longitude = some ln →
      attachHomeDistance h s =
        { s with distance_from_home := some (roundTo2 (haversineKm
            (h.latitude : ℝ) (h.longitude : ℝ) (la : ℝ) (ln : ℝ))) }) := by
  refine ⟨?_, ?_, ?_, ?_⟩
  · exact List.perm_insertionSort schoolLE (l.map (attachHomeDistance h))
  · exact List.sorted_insertionSort schoolLE (l.map (attachHomeDistance h))
  · intro s hs
    rcases hs with h1 | h1
    · cases hlng : s.longitude <;> simp [attachHomeDistance, h1, hlng]
    · cases hlat : s.latitude <;> simp [attachHomeDistance, h1, hlat]
  · intro s la ln h1 h2
    simp [attachHomeDistance, h1, h2]

def witnessHome : HomeLocation := { postcode := "SW1A 1AA", latitude := 51, longitude := 0 }

def witnessCoordSchool : School :=
  { blankSchool with urn := 10, name := "C", latitude := some 52, longitude := some 1 }

def witnessNoCoordSchool : School := { blankSchool with urn := 11, name := "D" }

/-- Witness for claim C3 at concrete inputs. -/
theorem claim_C3_enrichment_witness :
    List.Perm (enrichWithHomeDistance (some witnessHome) [witnessCoordSchool, witnessNoCoordSchool])
      ([witnessCoordSchool, witnessNoCoordSchool].map (attachHomeDistance witnessHome)) ∧
    List.Sorted schoolLE
      (enrichWithHomeDistance (some witnessHome) [witnessCoordSchool, witnessNoCoordSchool]) ∧
    attachHomeDistance witnessHome witnessNoCoordSchool = witnessNoCoordSchool ∧
    attachHomeDistance witnessHome witnessCoordSchool =
      { witnessCoordSchool with distance_from_home := some (roundTo2 (haversineKm
          ((51 : ℚ) : ℝ) ((0 : ℚ) : ℝ) ((52 : ℚ) : ℝ) ((1 : ℚ) : ℝ))) } := by
  have h := claim_C3_enrichment witnessHome [witnessCoordSchool, witnessNoCoordSchool]
  exact ⟨h.1, h.2.1, h.2.2.1 witnessNoCoordSchool (Or.inl rfl),
         h.2.2.2 witnessCoordSchool 52 1 rfl rfl⟩

/-- Positions produced by `markerPositionsAux`, elementwise: the `i`-th
output is the `i`-th input record's true coordinate shifted by `δ` times
the number of records before it (accumulated prefix plus the records of the
current list preceding position `i`) with exactly equal coordinates. -/
theorem markerPositionsAux_getElem :
    ∀ (l before : List School) (i : ℕ),
      (markerPositionsAux before l)[i]? =
        (l[i]?).map (fun s =>
          match s.latitude, s.longitude with
          | some la, some ln =>
            some (la + (dupesAmong (before ++ l.take i) s : ℚ) * deltaOffset,
                  ln + (dupesAmong (before ++ l.take i) s : ℚ) * deltaOffset)
          | _, _ => none) := by
  intro l
  induction l with
  | nil =>
    intro before i
    simp [markerPositionsAux]
  | cons s rest ih =>
    intro before i
    cases i with
    | zero =>
      simp [markerPositionsAux]
    | succ n =>
      have hstep : (markerPositionsAux before (s :: rest))[n + 1]? =
          (markerPositionsAux (before ++ [s]) rest)[n]? := by
        simp only [markerPositionsAux, List.getElem?_cons_succ]
      rw [hstep, ih (before ++ [s]) n]
      simp [List.append_assoc]

/-- With every record of `rest` (and of the accumulated prefix `before`)
at the same exact coordinate, the rendered positions are consecutive
multiples of `δ` starting at `|before| · δ`. -/
theorem markerPositionsAux_const (la ln : ℚ) :
    ∀ (rest before : List School),
      (∀ s ∈ before, s.latitude = some la ∧ s.longitude = some ln) →
      (∀ s ∈ rest, s.latitude = some la ∧ s.longitude = some ln) →
      markerPositionsAux before rest =
        (List.range' before.length rest.length).map
          (fun i : ℕ => some (la + (i : ℚ) * deltaOffset, ln + (i : ℚ) * deltaOffset)) := by
  intro rest
  induction rest with
  | nil =>
    intro before _ _
    rfl
  | cons s tl ih =>
    intro before hb hr
    obtain ⟨hla, hln⟩ := hr s (List.mem_cons_self s tl)
    have hcount : dupesAmong before s = before.length := by
      unfold dupesAmong
      rw [List.filter_eq_self.mpr]
      intro t ht
      obtain ⟨h1, h2⟩ := hb t ht
      simp [h1, h2, hla, hln]
    have hb' : ∀ t ∈ before ++ [s], t.latitude = some la ∧ t.longitude = some ln := by
      intro t ht
      rcases List.mem_append.mp ht with h1 | h1
      · exact hb t h1
      · rcases List.mem_singleton.mp h1 with rfl
        exact ⟨hla, hln⟩
    have hr' : ∀ t ∈ tl, t.latitude = some la ∧ t.longitude = some ln :=
      fun t ht => hr t (List.mem_cons_of_mem s ht)
    show (match s.latitude, s.longitude with
          | some la', some ln' =>
            some (la' + (dupesAmong before s : ℚ) * deltaOffset,
                  ln' + (dupesAmong before s : ℚ) * deltaOffset)
          | _, _ => none) :: markerPositionsAux (before ++ [s]) tl = _
    rw [hla, hln, hcount, ih (before ++ [s]) hb' hr', List.length_append,
        List.length_singleton, List.length_cons, List.range'_succ]
    rfl

/-- Claim C8.  Marker layout: (1) in general, the `i`-th rendered marker of a
record with both coordinates sits at the true coordinate shifted, in both
latitude and longitude, by `δ = 0.00008°` times the number of *earlier*
records in the list with exactly equal latitude and longitude (the record
itself is never modified — the renderer only produces positions); (2) for a
list of records all sharing one exact coordinate, the rendered positions
are the true coordinate offset by `0, δ, ..., (N−1)·δ` northeast in input
order, and those `N` positions are pairwise distinct. -/
theorem claim_C8_marker_offsets :
    (∀ (schools : List School) (i : ℕ) (s : School) (la ln : ℚ),
      schools[i]? = some s → s.latitude = some la → s.longitude = some ln →
      (markerPositions schools)[i]? =
        some (some (la + (dupesAmong (schools.take i) s : ℚ) * deltaOffset,
                    ln + (dupesAmong (schools.take i) s : ℚ) * deltaOffset))) ∧
    (∀ (schools : List School) (la ln : ℚ),
      (∀ s ∈ schools, s.latitude = some la ∧ s.longitude = some ln) →
      markerPositions schools =
        (List.range schools.length).map
          (fun i : ℕ => some (la + (i : ℚ) * deltaOffset, ln + (i : ℚ) * deltaOffset)) ∧
      (markerPositions schools).Nodup) := by
  constructor
  · intro schools i s la ln hs hla hln
    unfold markerPositions
    rw [markerPositionsAux_getElem schools [] i, hs]
    simp [hla, hln]
  · intro schools la ln hall
    have heq : markerPositions schools =
        (List.range schools.length).map
          (fun i : ℕ => some (la + (i : ℚ) * deltaOffset, ln + (i : ℚ) * deltaOffset)) := by
      unfold markerPositions
      rw [markerPositionsAux_const la ln schools [] (by intro t ht; simp at ht) hall,
          List.range_eq_range' schools.length]
      rfl
    refine ⟨heq, ?_⟩
    rw [heq]
    have hinj : Function.Injective (fun i : ℕ =>
        (some (la + (i : ℚ) * deltaOffset, ln + (i : ℚ) * deltaOffset) : Option (ℚ × ℚ))) := by
      intro i j hij
      simp only [Option.some.injEq, Prod.mk.injEq] at hij
      have h1 : (i : ℚ) * deltaOffset = (j : ℚ) * deltaOffset := by
        have := hij.1
        linarith
      have hd : (deltaOffset : ℚ) ≠ 0 := by norm_num [deltaOffset]
      have h2 : (i : ℚ) = (j : ℚ) := mul_right_cancel₀ hd h1
      exact_mod_cast h2
    exact (List.nodup_range schools.length).map hinj

def colocated1 : School :=
  { blankSchool with urn := 21, name := "P", latitude := some 51, longitude := some 1 }

def colocated2 : School :=
  { blankSchool with urn := 22, name := "Q", latitude := some 51, longitude := some 1 }

def colocated3 : School :=
  { blankSchool with urn := 23, name := "R", latitude := some 51, longitude := some 1 }

/-- Witness for claim C8 at concrete inputs: three records at one exact
coordinate receive offsets `0, δ, 2δ` in input order, all distinct. -/
theorem claim_C8_marker_offsets_witness :
    (markerPositions [colocated1, colocated2, colocated3])[1]? =
      some (some (51 + (dupesAmong ([colocated1, colocated2, colocated3].take 1) colocated2 : ℚ)
                    * deltaOffset,
                  1 + (dupesAmong ([colocated1, colocated2, colocated3].take 1) colocated2 : ℚ)
                    * deltaOffset)) ∧
    markerPositions [colocated1, colocated2, colocated3] =
      (List.range 3).map
        (fun i : ℕ => some (51 + (i : ℚ) * deltaOffset, 1 + (i : ℚ) * deltaOffset)) ∧
    (markerPositions [colocated1, colocated2, colocated3]).Nodup := by
  have h := claim_C8_marker_offsets
  have h2 := h.2 [colocated1, colocated2, colocated3] 51 1 (by decide)
  exact ⟨h.1 [colocated1, colocated2, colocated3] 1 colocated2 51 1 rfl rfl rfl,
         h2.1, h2.2⟩

end SchoolApp
